import Mathlib

/-!
Verification of the prmon polling / change-detection core.

Shallow embedding of the Go sources:
  internal/client/github/change_checker.go
  internal/client/github/poller.go  (Poller loop and PullRequestSummaryCollection)
  internal/pkg/tui/controller.go, internal/pkg/tui/statusbar.go

Modelling conventions:
  - Go strings are Lean `String`; Go slices are Lean `List`.
  - `time.Time` is modelled as seconds since the epoch (`Nat`); the zero value
    of `time.Time` is `0`.
  - Go `int` fields are modelled as `Int` where the repo uses them only as
    data (ReviewerCount, PollInterval) and as `Nat` for the issue number.
  - Functions that can terminate the process with a runtime error
    (the `err != nil` branches in `pullRequests` abort the process) are
    modelled with `Except String`.
  - A Go map used purely as a string set is modelled by membership in the
    key list it was built from.
-/

namespace Prmon

/-! ## change_checker.go -/

/-- A keyChecker accepts a slice of strings (keys) and returns a boolean
indicating whether the baseline keys match the given keys. -/
abbrev KeyChecker := List String → Bool

/-- A keyCheckerGen returns a keyChecker when provided a list of existing
keys. -/
abbrev KeyCheckerGen := List String → KeyChecker

/-- DEFAULT_KEY_CHECKER generates a map of keys, and checks against this map -
as a result it is not sensitive to the ordering of a list of keys.
The Go closure builds `keyPresentMap` from `keyList`; membership in that map
is exactly membership in `keyList`. -/
def DEFAULT_KEY_CHECKER : KeyCheckerGen := fun keyList =>
  fun newKeylist =>
    -- Check One: are the two key lists of the same length?
    if newKeylist.length != keyList.length then false
    -- Check Two: is every new key present in the generated key map?
    else newKeylist.all (fun key => keyList.contains key)

/-- SIMPLE_KEY_CHECKER simply compares two lists, and as such is sensitive
to the ordering of the input lists. The Go loop walks `keylist` and compares
position by position against `newKeylist` (lengths are equal on this branch,
so the paired walk is the Go indexed loop). -/
def SIMPLE_KEY_CHECKER : KeyCheckerGen := fun keylist =>
  fun newKeylist =>
    if newKeylist.length != keylist.length then false
    else (keylist.zip newKeylist).all (fun p => p.1 == p.2)

/-- ChangeChecker is a simple mechanism for comparing two collections and
determining whether or not any changes are present. It stores the generator
and the current comparison closure. -/
structure ChangeChecker where
  genKeyChecker : KeyCheckerGen
  keyChecker : KeyChecker

/-- NewChangeChecker: if a keyCheckerGen is not explicitly provided (Go:
`gen == nil`), the default map-based one is used. The Go constructor calls
`items.VersionKeys()` on the supplied collection; the embedding takes that key
list directly. -/
def NewChangeChecker (versionKeys : List String) (gen : Option KeyCheckerGen) :
    ChangeChecker :=
  let g := gen.getD DEFAULT_KEY_CHECKER
  { genKeyChecker := g, keyChecker := g versionKeys }

/-- Body of the HasChanged method: runs the stored keyChecker on the new key
list; on a detected change it reassigns the keyChecker field of the receiver.
Returns the verdict together with the final state of the receiver variable. -/
def ChangeChecker.hasChangedBody (cache : ChangeChecker) (keyList : List String) :
    Bool × ChangeChecker :=
  if cache.keyChecker keyList then
    -- keys match
    (false, cache)
  else
    (true, { cache with keyChecker := cache.genKeyChecker keyList })

/-- Caller-observed result of a HasChanged call. The Go method is declared
with a value receiver, `func (cache ChangeChecker) HasChanged(...)`, so the
reassignment of `cache.keyChecker` inside the method mutates a copy of the
struct and is discarded when the method returns: the caller keeps the
original ChangeChecker state. -/
def ChangeChecker.HasChanged (cache : ChangeChecker) (keyList : List String) : Bool :=
  (cache.hasChangedBody keyList).1

/-! ## poller.go: PullRequestSummary and its collection -/

/-- PullRequestSummary is a simplified PullRequest object which only contains
a subset of the properties returned from the Github API. -/
structure PullRequestSummary where
  Draft : Bool
  Author : String
  Title : String
  Repository : String
  ID : String
  ReviewerCount : Int
  Status : String
  OpenedAt : Nat
  URL : String
deriving DecidableEq, Repr

/-- versionKey: Key = [repository]:[prNum]:[status]:[draft]. The repo cares
about whether it is the same repository, whether the status has changed and
whether it remains a draft. -/
def PullRequestSummary.versionKey (pr : PullRequestSummary) : String :=
  let draftStr := if pr.Draft then "Y" else "N"
  pr.Repository ++ ":" ++ pr.ID ++ ":" ++ pr.Status ++ ":" ++ draftStr

/-- PullRequestSummaryCollection wraps a slice of PullRequestSummary structs
and a ChangeChecker. -/
structure PullRequestSummaryCollection where
  dirtyChecker : ChangeChecker
  Items : List PullRequestSummary

/-- VersionKeys returns a list of keys for the contained PullRequestSummary
entities, preserving entity order. -/
def PullRequestSummaryCollection.VersionKeys
    (collection : PullRequestSummaryCollection) : List String :=
  collection.Items.map (fun item => item.versionKey)

/-- NewPullRequestSummaryCollection builds the collection and then configures
it with a ChangeChecker using the default keyChecker (Go passes `nil` for the
generator). The Go constructor hands the collection itself to NewChangeChecker,
which reads its VersionKeys; the embedding passes those keys. -/
def NewPullRequestSummaryCollection (items : List PullRequestSummary) :
    PullRequestSummaryCollection :=
  let keys := items.map (fun item => item.versionKey)
  { dirtyChecker := NewChangeChecker keys none, Items := items }

/-- Update replaces the held items and returns the ChangeChecker verdict for
the new key list, together with the collection state after the call. The
dirtyChecker field is carried over unchanged because HasChanged has a value
receiver (see `ChangeChecker.HasChanged`): its internal keyChecker
reassignment never reaches the stored checker. -/
def PullRequestSummaryCollection.Update (collection : PullRequestSummaryCollection)
    (latestItems : List PullRequestSummary) :
    Bool × PullRequestSummaryCollection :=
  let updated := { collection with Items := latestItems }
  (updated.dirtyChecker.HasChanged updated.VersionKeys, updated)

/-! ## poller.go: fetch and the Poll tick

The two Issues filters, the `pullRequests` helper and one iteration of the
`Poll` loop body (one tick: the `case <-time.After(pauseInterval)` arm).
The remote API is a parameter. In Go a failed `Issues.List` call aborts the
process with a runtime error before any channel send; that abort is modelled
by `Except.error`, which short-circuits the rest of the tick. Channel sends
are recorded, in program order, in the emitted event list: the send blocks
until consumed, so list order is exactly the order the consumer observes. -/

/-- ASSIGNED_FILTER specifies that ALL Issues should be returned from Github. -/
def ASSIGNED_FILTER : String := "all"

/-- CREATED_FILTER specifies that ONLY CREATED Issues should be returned from
Github. -/
def CREATED_FILTER : String := "created"

/-- The fields of a `github.Issue` that the repo reads. -/
structure Issue where
  isPullRequest : Bool
  userLogin : String
  title : String
  repositoryOwner : String
  repositoryName : String
  number : Nat
  state : String
  createdAt : Nat
deriving Repr

/-- The fields of a `github.PullRequest` that the repo reads. -/
structure PullRequest where
  draft : Bool
  htmlURL : String
deriving Repr

/-- NewPullRequestFromAPI generates a PullRequestSummary from a Github Issue
together with the PullRequest record fetched for it. -/
def NewPullRequestFromAPI (issue : Issue) (pr : PullRequest) : PullRequestSummary :=
  { Draft := pr.draft
    Author := issue.userLogin
    Title := issue.title
    Repository := issue.repositoryName
    ID := toString issue.number
    -- the Go struct literal omits ReviewerCount: it stays at the zero value
    ReviewerCount := 0
    Status := issue.state
    OpenedAt := issue.createdAt
    URL := pr.htmlURL }

/-- The external Github API surface the Poller consumes: `Issues.List` for a
filter string, and `PullRequests.Get` for owner, repo and issue number. -/
structure GithubAPI where
  listIssues : String → Except String (List Issue)
  getPullRequest : String → String → Nat → Except String PullRequest

/-- The `get` closure inside `Poller.pullRequests`: lists issues for one
filter string (a listing failure aborts the process: `Except.error`), then
for every issue that is a pull request fetches the PullRequest record and
appends a summary; a failed per-issue fetch is silently skipped
(the Go code appends only when `err == nil`). -/
def pollerGet (api : GithubAPI) (filterString : String) :
    Except String (List PullRequestSummary) :=
  match api.listIssues filterString with
  | Except.error e => Except.error e
  | Except.ok issues =>
      Except.ok (issues.foldl (fun collection issue =>
        if issue.isPullRequest then
          match api.getPullRequest issue.repositoryOwner issue.repositoryName
              issue.number with
          | Except.ok pullRequest =>
              collection ++ [NewPullRequestFromAPI issue pullRequest]
          | Except.error _ => collection
        else collection) [])

/-- pullRequests retrieves the two filtered sets, assigned first then created,
in that evaluation order; the first failure aborts both. -/
def pullRequests (api : GithubAPI) (assignedFilterQuery createdFilterQuery : String) :
    Except String (List PullRequestSummary × List PullRequestSummary) :=
  match pollerGet api assignedFilterQuery with
  | Except.error e => Except.error e
  | Except.ok assigned =>
      match pollerGet api createdFilterQuery with
      | Except.error e => Except.error e
      | Except.ok created => Except.ok (assigned, created)

/-- A send on one of the two PollerNotificationChannels. -/
inductive PollEvent where
  /-- A send of the current time on LatestPollTimestamp. -/
  | timestamp (t : Nat)
  /-- A send of the unit value on NewDataAvailable. -/
  | newData
deriving DecidableEq, Repr

/-- The mutable state of the Poller that one tick reads and writes: the two
collections guarded by the embedded mutex. -/
structure PollerState where
  AssignedPullRequests : PullRequestSummaryCollection
  CreatedPullRequests : PullRequestSummaryCollection

/-- One tick of the Poll loop (the timer arm of the select): fetch both
filtered sets, send the current timestamp, then under the lock Update both
collections and, if either reported a change, send the new-data signal.
Returns the poller state after the tick and the channel sends in emission
order; a fetch failure aborts the tick before any send. -/
def pollTick (api : GithubAPI) (now : Nat) (poller : PollerState) :
    Except String (PollerState × List PollEvent) :=
  match pullRequests api ASSIGNED_FILTER CREATED_FILTER with
  | Except.error e => Except.error e
  | Except.ok fetched =>
      let assigned := fetched.1
      let created := fetched.2
      let eventsAfterTimestamp : List PollEvent := [PollEvent.timestamp now]
      -- poller.Lock()
      let updatedAssigned := poller.AssignedPullRequests.Update assigned
      let haveUpdatedAssignations := updatedAssigned.1
      let updatedCreated := poller.CreatedPullRequests.Update created
      let haveUpdatedCreations := updatedCreated.1
      let events :=
        if haveUpdatedAssignations || haveUpdatedCreations then
          eventsAfterTimestamp ++ [PollEvent.newData]
        else
          eventsAfterTimestamp
      -- poller.Unlock()
      Except.ok ({ AssignedPullRequests := updatedAssigned.2,
                   CreatedPullRequests := updatedCreated.2 }, events)

/-! ## tui: Table, StatusBar, Controller

The render targets. A tview Table is mutated only through `Table.Update`,
which repopulates it from one collection; the embedding records, per table,
the sequence of collections applied to it (oldest first), which is the
observable the routing and no-clear claims are about. The StatusBar closure
captures username and poll interval at construction; the embedding stores
them as fields, and `StatusBar.Update` rewrites the text exactly as the
generator does. -/

/-- A render-target table, recording every collection applied to it via
Update, oldest first. -/
structure Table where
  applied : List (List PullRequestSummary)
deriving DecidableEq, Repr

/-- Table.Update repopulates the table from the given rows (one more applied
collection). -/
def Table.Update (t : Table) (rows : List PullRequestSummary) : Table :=
  { applied := t.applied ++ [rows] }

/-- STATUS_TIMESTAMP_FORMAT renders a time as its time of day (the Go layout
shows hours, minutes and seconds only). -/
def STATUS_TIMESTAMP_FORMAT (t : Nat) : String :=
  toString (t % 86400)

/-- The status line produced by the StatusBar generator closure for a given
last-sync time (STATUS_FORMAT_STR with the captured username and interval). -/
def statusLine (username : String) (pollInterval : Int) (lastSync : Nat) : String :=
  "Signed in as " ++ username ++ ". Polling at " ++ toString pollInterval ++
    " minute intervals. (Last synchronised at " ++
    STATUS_TIMESTAMP_FORMAT lastSync ++ ")"

/-- StatusBar: the generator closure is represented by its captured username
and poll interval; `text` is the current contents of the TextView primitive. -/
structure StatusBar where
  username : String
  pollInterval : Int
  text : String
deriving DecidableEq, Repr

/-- NewStatusBar captures username and poll interval and renders the initial
sync time. -/
def NewStatusBar (username : String) (pollInterval : Int) (initialSync : Nat) :
    StatusBar :=
  { username := username
    pollInterval := pollInterval
    text := statusLine username pollInterval initialSync }

/-- StatusBar.Update rewrites the TextView text from the generator and the
latest sync time. -/
def StatusBar.Update (sb : StatusBar) (latestSync : Nat) : StatusBar :=
  { sb with text := statusLine sb.username sb.pollInterval latestSync }

/-- State contains all the data required by the UI and is the partial-update
payload handed to Controller.Update. -/
structure State where
  GithubUsername : String
  PollInterval : Int
  Assigned : List PullRequestSummary
  Created : List PullRequestSummary
  LastSync : Nat
deriving Repr

/-- Controller holds the two tables and the status bar. -/
structure Controller where
  assignedPRTable : Table
  createdPRTable : Table
  statusBar : StatusBar
deriving DecidableEq, Repr

/-- NewController initialises the UI components; each table is created from
the corresponding initial collection (NewTable applies the rows once), and
the status bar from username, interval and initial sync time. -/
def NewController (state : State) : Controller :=
  { assignedPRTable := Table.Update { applied := [] } state.Assigned
    createdPRTable := Table.Update { applied := [] } state.Created
    statusBar := NewStatusBar state.GithubUsername state.PollInterval state.LastSync }

/-- Controller.Update, exactly as the Go source: inside one queued update it
updates `assignedPRTable` from `newState.Assigned` when that list is
non-empty, then updates `assignedPRTable` again from `newState.Created` when
that list is non-empty (the Go code names `tui.assignedPRTable` in both
branches and never touches `createdPRTable`), then unconditionally updates
the status bar with `newState.LastSync`. -/
def Controller.Update (tui : Controller) (newState : State) : Controller :=
  let afterAssigned :=
    if newState.Assigned.length > 0 then
      { tui with assignedPRTable := tui.assignedPRTable.Update newState.Assigned }
    else tui
  let afterCreated :=
    if newState.Created.length > 0 then
      { afterAssigned with
          assignedPRTable := afterAssigned.assignedPRTable.Update newState.Created }
    else afterAssigned
  { afterCreated with statusBar := afterCreated.statusBar.Update newState.LastSync }

/-! ## Concrete inputs used by the theorems below -/

/-- The entity of the §8 scenario: repo "a", id "1", status "open", no draft. -/
def prOpen : PullRequestSummary :=
  { Draft := false, Author := "au", Title := "ti", Repository := "a", ID := "1",
    ReviewerCount := 0, Status := "open", OpenedAt := 0, URL := "u" }

/-- The same entity after merging: only the status differs. -/
def prMerged : PullRequestSummary := { prOpen with Status := "merged" }

/-- The same entity with every non-allow-listed field edited. -/
def prRetitled : PullRequestSummary :=
  { prOpen with
      Title := "other"
      Author := "someone"
      ReviewerCount := 3
      OpenedAt := 99
      URL := "v" }

/-- A controller whose tables have received no updates yet. -/
def controllerStart : Controller :=
  { assignedPRTable := { applied := [] }, createdPRTable := { applied := [] },
    statusBar := NewStatusBar "u" 5 0 }

/-- A render state carrying both collections (a changed-data round). -/
def stateBoth : State :=
  { GithubUsername := "u", PollInterval := 5, Assigned := [prOpen],
    Created := [prMerged], LastSync := 10 }

/-- A render state with every field absent / at its zero value. -/
def stateAbsent : State :=
  { GithubUsername := "", PollInterval := 0, Assigned := [], Created := [],
    LastSync := 0 }

/-- A controller whose status bar shows a non-zero last-sync time. -/
def controllerSynced : Controller :=
  { assignedPRTable := { applied := [] }, createdPRTable := { applied := [] },
    statusBar := NewStatusBar "u" 5 11 }

/-- An API whose issue listing always fails. -/
def apiFailing : GithubAPI :=
  { listIssues := fun _ => Except.error "boom",
    getPullRequest := fun _ _ _ => Except.error "boom" }

/-- An API that returns no issues at all. -/
def apiNoIssues : GithubAPI :=
  { listIssues := fun _ => Except.ok [],
    getPullRequest := fun _ _ _ => Except.error "unused" }

/-- A single pull-request issue as listed by the API. -/
def issueOne : Issue :=
  { isPullRequest := true, userLogin := "au", title := "ti",
    repositoryOwner := "ow", repositoryName := "a", number := 1,
    state := "open", createdAt := 0 }

/-- The PullRequest record fetched for `issueOne`. -/
def prRecordOne : PullRequest := { draft := false, htmlURL := "u" }

/-- An API that lists exactly `issueOne` under every filter. -/
def apiOneIssue : GithubAPI :=
  { listIssues := fun _ => Except.ok [issueOne],
    getPullRequest := fun _ _ _ => Except.ok prRecordOne }

/-- The summary the Poller builds from `issueOne`. -/
def summaryOne : PullRequestSummary := NewPullRequestFromAPI issueOne prRecordOne

/-- A poller state holding two freshly constructed empty collections. -/
def pollerStateEmpty : PollerState :=
  { AssignedPullRequests := NewPullRequestSummaryCollection [],
    CreatedPullRequests := NewPullRequestSummaryCollection [] }

/-- `pollerStateEmpty` after a tick that fetched no issues. -/
def pollerStateEmptyAfter : PollerState :=
  { AssignedPullRequests := (pollerStateEmpty.AssignedPullRequests.Update []).2,
    CreatedPullRequests := (pollerStateEmpty.CreatedPullRequests.Update []).2 }

/-- `pollerStateEmpty` after a tick that fetched `summaryOne` for both filters. -/
def pollerStateAfterOne : PollerState :=
  { AssignedPullRequests := (pollerStateEmpty.AssignedPullRequests.Update [summaryOne]).2,
    CreatedPullRequests := (pollerStateEmpty.CreatedPullRequests.Update [summaryOne]).2 }

/-! ## Helper lemmas -/

/-- The order-insensitive checker accepts any permutation of its baseline:
lengths agree and every new key is a member of the baseline. -/
theorem default_keyChecker_of_perm (A B : List String) (h : A.Perm B) :
    DEFAULT_KEY_CHECKER A B = true := by
  have hlen : B.length = A.length := h.length_eq.symm
  simp only [DEFAULT_KEY_CHECKER, hlen, bne_self_eq_false, Bool.false_eq_true,
    if_false, List.all_eq_true]
  intro key hkey
  simpa [List.contains, List.elem_iff] using h.mem_iff.mpr hkey

/-- Two lists of equal length whose zip is pointwise `==` are equal. -/
theorem eq_of_zip_all_beq :
    ∀ (A B : List String), A.length = B.length →
      ((A.zip B).all fun p => p.1 == p.2) = true → A = B
  | [], [], _, _ => rfl
  | [], _ :: _, hlen, _ => by simp at hlen
  | _ :: _, [], hlen, _ => by simp at hlen
  | a :: A, b :: B, hlen, hall => by
    simp only [List.zip_cons_cons, List.all_cons, Bool.and_eq_true, beq_iff_eq] at hall
    have htail := eq_of_zip_all_beq A B (by simpa using hlen) hall.2
    rw [hall.1, htail]

/-- The order-sensitive checker rejects every list that differs from its
baseline, even when the two lists have the same length. -/
theorem simple_keyChecker_of_ne (A B : List String) (hlen : A.length = B.length)
    (hne : A ≠ B) : SIMPLE_KEY_CHECKER A B = false := by
  simp only [SIMPLE_KEY_CHECKER, hlen, bne_self_eq_false, Bool.false_eq_true, if_false]
  cases hall : (A.zip B).all fun p => p.1 == p.2
  · rfl
  · exact absurd (eq_of_zip_all_beq A B hlen hall) hne

/-! ## Claim theorems -/

/-- C1: the claim says that after HasChanged reports "changed" the baseline
advances, so an immediately repeated Update with an identical collection
returns false. The code does not do this: HasChanged is declared with a value
receiver, so the regenerated keyChecker is discarded and the baseline never
advances. Evaluated at the §8 scenario: Update from the "open" entity to the
"merged" entity returns true, and the immediately following Update with the
identical "merged" entity returns true again instead of false. -/
theorem update_repeat_still_reports_changed :
    ((NewPullRequestSummaryCollection [prOpen]).Update [prMerged]).1 = true ∧
    (((NewPullRequestSummaryCollection [prOpen]).Update [prMerged]).2.Update
      [prMerged]).1 = true :=
  ⟨rfl, rfl⟩

/-- C3: the claim says each collection is routed to its own render target,
neither skipped and neither written twice. The code routes both collections
to the assigned table (writing it twice) and never updates the created table.
Evaluated at a round carrying both collections: the assigned table receives
the assigned contents and then the created contents, while the created table
receives nothing. -/
theorem controllerUpdate_misroutes_created :
    ((controllerStart.Update stateBoth).assignedPRTable.applied
        = [[prOpen], [prMerged]]) ∧
    ((controllerStart.Update stateBoth).createdPRTable.applied = []) :=
  ⟨rfl, rfl⟩

/-- C4, counterexample: the claim says a zero-value last-sync timestamp
leaves the status bar unchanged, but Controller.Update rewrites the status
bar unconditionally, so applying a render state whose every field is absent
changes a status bar that showed a non-zero sync time. -/
theorem controllerUpdate_zero_lastSync_overwrites_statusBar :
    (controllerSynced.Update stateAbsent).statusBar ≠ controllerSynced.statusBar := by
  decide

/-- C4, amended: when both collection fields are absent, both tables are left
unchanged; the last-sync timestamp, however, is applied unconditionally — the
status bar is always rewritten from the supplied LastSync, including its zero
value. -/
theorem controllerUpdate_absent_fields (tui : Controller) (newState : State)
    (hA : newState.Assigned = []) (hC : newState.Created = []) :
    (tui.Update newState).assignedPRTable = tui.assignedPRTable ∧
    (tui.Update newState).createdPRTable = tui.createdPRTable ∧
    (tui.Update newState).statusBar = tui.statusBar.Update newState.LastSync := by
  unfold Controller.Update
  simp [hA, hC]

/-- Witness for `controllerUpdate_absent_fields` at a concrete controller and
the all-absent render state. -/
theorem controllerUpdate_absent_fields_witness :
    (controllerSynced.Update stateAbsent).assignedPRTable
        = controllerSynced.assignedPRTable ∧
    (controllerSynced.Update stateAbsent).createdPRTable
        = controllerSynced.createdPRTable ∧
    (controllerSynced.Update stateAbsent).statusBar
        = controllerSynced.statusBar.Update stateAbsent.LastSync :=
  controllerUpdate_absent_fields controllerSynced stateAbsent rfl rfl

/-- C7: for key lists A and B with identical multisets (a permutation), the
order-insensitive detector reports "unchanged" (HasChanged is false); and
when A and B additionally differ in order (A is not B itself), the
order-sensitive detector reports "changed" (HasChanged is true). -/
theorem hasChanged_perm_policies (A B : List String) (hperm : A.Perm B) :
    (NewChangeChecker A none).HasChanged B = false ∧
    (A ≠ B → (NewChangeChecker A (some SIMPLE_KEY_CHECKER)).HasChanged B = true) := by
  constructor
  · simp [ChangeChecker.HasChanged, ChangeChecker.hasChangedBody, NewChangeChecker,
      default_keyChecker_of_perm A B hperm]
  · intro hne
    simp [ChangeChecker.HasChanged, ChangeChecker.hasChangedBody, NewChangeChecker,
      simple_keyChecker_of_ne A B hperm.length_eq hne]

/-- Witness for `hasChanged_perm_policies` on ["x", "y"] against its
reversal. -/
theorem hasChanged_perm_policies_witness :
    (NewChangeChecker ["x", "y"] none).HasChanged ["y", "x"] = false ∧
    ((["x", "y"] : List String) ≠ ["y", "x"] →
      (NewChangeChecker ["x", "y"] (some SIMPLE_KEY_CHECKER)).HasChanged
        ["y", "x"] = true) :=
  hasChanged_perm_policies ["x", "y"] ["y", "x"] (by decide)

/-- C8: the claim says every collection currently holding N>0 entities
reports "changed" when updated with an empty entity list. The code falsifies
this for collections that grew after construction: HasChanged never advances
the baseline (value receiver, see C1), so a collection constructed empty and
then updated to hold one entity (that first Update duly returns true and the
collection then holds N=1>0 entities) compares the next empty key list
against the pinned empty construction-time baseline and its Update with []
returns false ("unchanged"). The empty-vs-empty half of the claim does hold:
an empty current key list against an empty baseline is "unchanged" under
both comparison policies. -/
theorem update_to_empty_after_growth_reports_unchanged :
    (((NewPullRequestSummaryCollection []).Update [prOpen]).1 = true) ∧
    ((((NewPullRequestSummaryCollection []).Update [prOpen]).2.Items) = [prOpen]) ∧
    (((((NewPullRequestSummaryCollection []).Update [prOpen]).2.Update []).1) = false) ∧
    (NewChangeChecker [] none).HasChanged [] = false ∧
    (NewChangeChecker [] (some SIMPLE_KEY_CHECKER)).HasChanged [] = false :=
  ⟨rfl, rfl, rfl, rfl, rfl⟩

/-- C9: the version key is a function of exactly the allow-listed fields:
two entities agreeing on repository, id, status and draft flag have equal
keys, and an update whose entities differ from the held ones only outside the
allow-list (same repository, id, status and draft for each entity) reports
"unchanged", so it never triggers a changed-data notification. -/
theorem versionKey_allowlist (p q : PullRequestSummary)
    (hrepo : p.Repository = q.Repository) (hid : p.ID = q.ID)
    (hstatus : p.Status = q.Status) (hdraft : p.Draft = q.Draft) :
    p.versionKey = q.versionKey ∧
    ∀ (items : List PullRequestSummary) (edit : PullRequestSummary → PullRequestSummary),
      (∀ pr, (edit pr).Repository = pr.Repository ∧ (edit pr).ID = pr.ID ∧
        (edit pr).Status = pr.Status ∧ (edit pr).Draft = pr.Draft) →
      ((NewPullRequestSummaryCollection items).Update (items.map edit)).1 = false := by
  have hkey : ∀ a b : PullRequestSummary, a.Repository = b.Repository →
      a.ID = b.ID → a.Status = b.Status → a.Draft = b.Draft →
      a.versionKey = b.versionKey := by
    intro a b h1 h2 h3 h4
    unfold PullRequestSummary.versionKey
    rw [h1, h2, h3, h4]
  refine ⟨hkey p q hrepo hid hstatus hdraft, ?_⟩
  intro items edit hedit
  have hkeys : (items.map edit).map PullRequestSummary.versionKey
      = items.map PullRequestSummary.versionKey := by
    rw [List.map_map]
    refine List.map_congr_left ?_
    intro a _
    exact hkey (edit a) a (hedit a).1 (hedit a).2.1 (hedit a).2.2.1 (hedit a).2.2.2
  simp only [NewPullRequestSummaryCollection, PullRequestSummaryCollection.Update,
    PullRequestSummaryCollection.VersionKeys, NewChangeChecker,
    ChangeChecker.HasChanged, ChangeChecker.hasChangedBody]
  simp only [Option.getD]
  rw [hkeys, default_keyChecker_of_perm _ _ (List.Perm.refl _)]
  rfl

/-- Witness for `versionKey_allowlist`: the "open" entity and its copy with
title, author, reviewer count, timestamp and URL all edited share one key,
and allow-list-preserving edits never flag a change. -/
theorem versionKey_allowlist_witness :
    prOpen.versionKey = prRetitled.versionKey ∧
    ∀ (items : List PullRequestSummary) (edit : PullRequestSummary → PullRequestSummary),
      (∀ pr, (edit pr).Repository = pr.Repository ∧ (edit pr).ID = pr.ID ∧
        (edit pr).Status = pr.Status ∧ (edit pr).Draft = pr.Draft) →
      ((NewPullRequestSummaryCollection items).Update (items.map edit)).1 = false :=
  versionKey_allowlist prOpen prRetitled rfl rfl rfl rfl

/-- C10: with baseline [k1, k1, k2] and current [k1, k2, k2] — equal lengths
but different multisets (the count of k1 differs) — the default
order-insensitive detector reports "unchanged": set membership cannot
distinguish duplicate counts, so the change is silently missed. -/
theorem default_policy_misses_duplicate_shift :
    ((["k1", "k1", "k2"] : List String).count "k1"
        ≠ (["k1", "k2", "k2"] : List String).count "k1") ∧
    (["k1", "k1", "k2"] : List String).length
        = (["k1", "k2", "k2"] : List String).length ∧
    (NewChangeChecker ["k1", "k1", "k2"] none).HasChanged ["k1", "k2", "k2"]
        = false := by
  decide

/-- A successful pullRequests call requires both issue listings to have
succeeded: the first failing listing aborts the whole fetch. -/
theorem pullRequests_ok_listings (api : GithubAPI) (f g : String)
    (pair : List PullRequestSummary × List PullRequestSummary)
    (h : pullRequests api f g = Except.ok pair) :
    (∃ a, api.listIssues f = Except.ok a) ∧ (∃ c, api.listIssues g = Except.ok c) := by
  unfold pullRequests pollerGet at h
  cases ha : api.listIssues f with
  | error e => rw [ha] at h; exact absurd h (by simp)
  | ok issuesA =>
      cases hc : api.listIssues g with
      | error e => rw [ha, hc] at h; exact absurd h (by simp)
      | ok issuesC => exact ⟨⟨issuesA, rfl⟩, ⟨issuesC, rfl⟩⟩

/-- C2: if the issue listing for either filtered sub-collection fails, the
tick propagates the failure and surfaces nothing: pollTick returns an error,
so no state (in particular no partial collection) and no notification events
are handed over for that tick. -/
theorem pollTick_fetch_failure_surfaces_nothing (api : GithubAPI) (now : Nat)
    (st : PollerState)
    (h : (∃ e, api.listIssues ASSIGNED_FILTER = Except.error e) ∨
         (∃ e, api.listIssues CREATED_FILTER = Except.error e)) :
    ∃ e, pollTick api now st = Except.error e := by
  cases hp : pullRequests api ASSIGNED_FILTER CREATED_FILTER with
  | error e => exact ⟨e, by unfold pollTick; rw [hp]⟩
  | ok pair =>
      exfalso
      have hok := pullRequests_ok_listings api ASSIGNED_FILTER CREATED_FILTER pair hp
      rcases h with ⟨e, he⟩ | ⟨e, he⟩
      · obtain ⟨a, ha⟩ := hok.1
        rw [ha] at he
        exact absurd he (by simp)
      · obtain ⟨c, hc⟩ := hok.2
        rw [hc] at he
        exact absurd he (by simp)

/-- Witness for `pollTick_fetch_failure_surfaces_nothing` with an API whose
listings always fail. -/
theorem pollTick_fetch_failure_surfaces_nothing_witness :
    ∃ e, pollTick apiFailing 7 pollerStateEmpty = Except.error e :=
  pollTick_fetch_failure_surfaces_nothing apiFailing 7 pollerStateEmpty
    (Or.inl ⟨"boom", rfl⟩)

/-- C5: a successful tick emits the changed-data signal exactly once when at
least one of the two Update calls reported a change, and not at all
otherwise: its count among the emitted events is one or zero accordingly. -/
theorem pollTick_newData_iff_update (api : GithubAPI) (now : Nat)
    (st stOut : PollerState) (events : List PollEvent)
    (assigned created : List PullRequestSummary)
    (hfetch : pullRequests api ASSIGNED_FILTER CREATED_FILTER
        = Except.ok (assigned, created))
    (htick : pollTick api now st = Except.ok (stOut, events)) :
    events.count PollEvent.newData =
      if (st.AssignedPullRequests.Update assigned).1 ||
         (st.CreatedPullRequests.Update created).1 then 1 else 0 := by
  unfold pollTick at htick
  rw [hfetch] at htick
  simp only at htick
  cases hcond : (st.AssignedPullRequests.Update assigned).1 ||
      (st.CreatedPullRequests.Update created).1 <;>
    rw [hcond] at htick <;>
    simp only [if_true, if_false, Except.ok.injEq, Prod.mk.injEq] at htick <;>
    rw [← htick.2] <;>
    simp [List.count_cons]

/-- Witness for `pollTick_newData_iff_update`: a tick against an API that
lists no issues leaves both collections unchanged and emits no changed-data
signal. -/
theorem pollTick_newData_iff_update_witness :
    (([PollEvent.timestamp 7] : List PollEvent).count PollEvent.newData =
      if (pollerStateEmpty.AssignedPullRequests.Update []).1 ||
         (pollerStateEmpty.CreatedPullRequests.Update []).1 then 1 else 0) :=
  pollTick_newData_iff_update apiNoIssues 7 pollerStateEmpty pollerStateEmptyAfter
    [PollEvent.timestamp 7] [] [] rfl rfl

/-- C6: in a successful tick whose events include the changed-data signal,
the timestamp notification occurs strictly earlier in the emission order than
the changed-data notification, never the reverse. -/
theorem pollTick_timestamp_before_newData (api : GithubAPI) (now : Nat)
    (st stOut : PollerState) (events : List PollEvent)
    (htick : pollTick api now st = Except.ok (stOut, events))
    (hnd : PollEvent.newData ∈ events) :
    events.indexOf (PollEvent.timestamp now) < events.indexOf PollEvent.newData := by
  unfold pollTick at htick
  cases hp : pullRequests api ASSIGNED_FILTER CREATED_FILTER with
  | error e => rw [hp] at htick; exact absurd htick (by simp)
  | ok pair =>
      rw [hp] at htick
      simp only at htick
      cases hcond : (st.AssignedPullRequests.Update pair.1).1 ||
          (st.CreatedPullRequests.Update pair.2).1 <;>
        rw [hcond] at htick <;>
        simp only [if_true, if_false, Except.ok.injEq, Prod.mk.injEq] at htick <;>
        rw [← htick.2] at hnd ⊢
      · simp at hnd
      · simp only [List.singleton_append]
        rw [List.indexOf_cons_self]
        have : PollEvent.timestamp now ≠ PollEvent.newData := by simp
        rw [List.indexOf_cons_ne _ this]
        exact Nat.succ_pos _

/-- Witness for `pollTick_timestamp_before_newData`: a tick that fetches one
new pull request emits the timestamp first and the changed-data signal
second. -/
theorem pollTick_timestamp_before_newData_witness :
    ([PollEvent.timestamp 7, PollEvent.newData] : List PollEvent).indexOf
        (PollEvent.timestamp 7) <
      ([PollEvent.timestamp 7, PollEvent.newData] : List PollEvent).indexOf
        PollEvent.newData :=
  pollTick_timestamp_before_newData apiOneIssue 7 pollerStateEmpty
    pollerStateAfterOne [PollEvent.timestamp 7, PollEvent.newData] rfl (by decide)

end Prmon
